import Mathlib

/-!
Shallow embedding of `src/OllamaToGGUF.py` — the recombination engine:
`get_model_size`, `recombine_model` (metadata validation, strategy
selection and the buffered in-memory assembly) and
`recombine_model_chunked` (the streamed assembly).

Modelling conventions:
* Blob-store reads are modelled by a `Store` mapping full blob paths to
  blob values; a blob carries its byte content, the JSON value that
  `json.load` would produce for it (for the configuration document), and
  an optional injected read fault (`fault = some k` means the k-th read
  call on the opened file raises an I/O error; `none` means reads never
  fail).  Output-file effects are modelled by an explicit `FS` state.
* Python exceptions escaping a function are modelled with `Except String`;
  the chunked loop's three exit modes (normal completion, an early
  `return False`, an exception reaching the outer handler) are an explicit
  `LoopExit`.
* Console prints that the claims observe are modelled as a trace of
  `Event`s; purely decorative prints are not modelled.  The float
  expression `int(bytes_processed / file_size * 100)` is modelled as the
  natural-number floor `bytes_processed * 100 / file_size`.
-/

namespace OllamaToGGUF

abbrev Bytes := List Nat

/-- JSON values as produced by `json.load` for the configuration document. -/
inductive JVal where
  | str (s : String)
  | num (n : Int)
  | bool (b : Bool)
  | null
  | arr (xs : List JVal)
  | obj (kvs : List (String × JVal))

/-- Dictionary lookup, `d[k]` / `d.get(k)` on a parsed JSON object. -/
def lookupKey (kvs : List (String × JVal)) (k : String) : Option JVal :=
  (kvs.find? (fun p => p.1 == k)).map Prod.snd

/-- Python `len` on a JSON value: defined for strings, lists and dicts,
`none` models the `TypeError` raised on other values. -/
def pyLen : JVal → Option Nat
  | .str s => some s.length
  | .arr xs => some xs.length
  | .obj kvs => some kvs.length
  | _ => none

/-- Python `str()` on a JSON value.  The exact rendering of composite
values is irrelevant to every claim; it is abstracted by placeholders. -/
def pyStr : JVal → String
  | .str s => s
  | .num n => toString n
  | .bool b => cond b "True" "False"
  | .null => "None"
  | .arr _ => "[list]"
  | .obj _ => "[dict]"

/-- Whether a JSON value is a string (`isinstance(v, str)`). -/
def JVal.isStr : JVal → Bool
  | .str _ => true
  | _ => false

/-- Lines 85-90 of the source: `config_data['file_type']` (KeyError when
absent), `assert len(modelQuant) > 0` (TypeError when `len` undefined,
AssertionError when 0), `assert isinstance(modelQuant, str)`; every
exception is converted to the same
`ValueError("Invalid or missing file_type parameter.")`. -/
def fileTypeOf (config_data : List (String × JVal)) : Except String String :=
  match lookupKey config_data "file_type" with
  | none => .error "Invalid or missing `file_type` parameter."
  | some v =>
    match pyLen v with
    | none => .error "Invalid or missing `file_type` parameter."
    | some 0 => .error "Invalid or missing `file_type` parameter."
    | some (_ + 1) =>
      match v with
      | .str s => .ok s
      | _ => .error "Invalid or missing `file_type` parameter."

/-- A layer descriptor from the manifest's `layers` list. -/
structure Layer where
  mediaType : String
  digest : String
deriving DecidableEq

/-- The manifest's `config` section. -/
structure ConfigRef where
  digest : Option String
deriving DecidableEq

/-- A parsed manifest document.  `none` models an absent field (both
`obj.get('config')` and `obj.get('layers')` returning `None`). -/
structure Manifest where
  config : Option ConfigRef
  layers : Option (List Layer)

/-- A blob in the store: its byte content, the JSON value `json.load`
would produce from it (`none` models a JSON parse error), and an injected
read fault: `fault = some k` means the k-th read call (0-based) on the
opened file raises an I/O error. -/
structure Blob where
  content : Bytes
  json : Option (List (String × JVal))
  fault : Option Nat

/-- The blob store: a map from full blob paths to blobs; `none` models a
path for which `os.path.exists` is false. -/
abbrev Store := String → Option Blob

/-- The output filesystem state: a map from paths to file contents. -/
abbrev FS := String → Option Bytes

def emptyFS : FS := fun _ => none

def updateFS (fs : FS) (p : String) (content : Bytes) : FS :=
  fun q => if q = p then some content else fs q

def removeFS (fs : FS) (p : String) : FS :=
  fun q => if q = p then none else fs q

def osSep : String := "/"

/-- Python `os.sep.join(parts)`. -/
def osJoin (parts : List String) : String := String.intercalate osSep parts

/-- Splitting a character list at every occurrence of a separator; always
returns at least one (possibly empty) group, like Python `str.split(sep)`. -/
def splitOnChar (c : Char) : List Char → List (List Char)
  | [] => [[]]
  | x :: xs =>
    match splitOnChar c xs with
    | [] => [[]]
    | g :: gs => if x = c then [] :: g :: gs else (x :: g) :: gs

/-- Python `s.split(c)` for a one-character separator. -/
def pySplit (s : String) (c : Char) : List String :=
  (splitOnChar c s.data).map String.mk

/-- `os.path.dirname`, for the normal separated paths the program uses. -/
def dirname (p : String) : String := osJoin ((pySplit p '/').dropLast)

/-- `os.path.basename`, for the normal separated paths the program uses. -/
def basename (p : String) : String := (pySplit p '/').getLastD ""

/-- `digest.split(':')[1]` — `none` models the `IndexError` raised when the
digest has no `:` separator. -/
def shaOf (digest : String) : Option String := (pySplit digest ':')[1]?

/-- The full path of a layer blob: blob_directory, then `sha256-` and the hex. -/
def blobPath (blob_directory sha : String) : String :=
  osJoin [blob_directory, "sha256-" ++ sha]

/-- Lines 39-48 of the source: sum the sizes of the layer blobs that
exist, a missing blob contributing nothing; `.error` models the uncaught
`IndexError` on a digest without a `:` separator.  A pure function of the
store: it cannot mutate it. -/
def get_model_size (layers : List Layer) (store : Store) (blob_directory : String) :
    Except String Nat :=
  match layers with
  | [] => .ok 0
  | layer_info :: rest =>
    match shaOf layer_info.digest with
    | none => .error "IndexError: list index out of range"
    | some sha =>
      let source_blob := blobPath blob_directory sha
      let sz := match store source_blob with
        | some b => b.content.length
        | none => 0
      match get_model_size rest store blob_directory with
      | .error e => .error e
      | .ok total => .ok (sz + total)

/-- `large_file_threshold = 1 * 1024 * 1024 * 1024` (line 109). -/
def large_file_threshold : Nat := 1 * 1024 * 1024 * 1024

/-- Line 112: `total_size > large_file_threshold` — the strategy selector. -/
def choosesChunked (total_size : Nat) : Bool :=
  decide (large_file_threshold < total_size)

/-- The default `chunk_size` parameter of `recombine_model_chunked` (16 MiB). -/
def default_chunk_size : Nat := 16 * 1024 * 1024

/-- The console prints the claims observe, as structured events. -/
inductive Event where
  | usingStandardMsg
  | usingChunkedMsg (total_size : Nat)
  | chunkModeMsg (chunk_size : Nat)
  | layerIndex (i : Nat)
  | readingBlob (path : String)
  | readSuccess (path : String) (nbytes : Nat)
  | readFailed (path : String) (msg : String)
  | blobNotFound (path : String)
  | processingBlob (path : String) (nbytes : Nat)
  | chunkProgress (pct : Nat) (bytes_processed : Nat) (file_size : Nat)
  | processedBlob (path : String) (nbytes : Nat)
  | processFailed (path : String) (msg : String)
  | createdArtifact (path : String) (nbytes : Nat)
  | abortedErrors (modelName : String)
  | abortedNoLayers (modelName : String)
  | chunkedError (msg : String)
  | removedIncomplete
deriving DecidableEq

/-- The outcome of a call: the Python return value (or the uncaught
exception's message), the emitted events, and the output filesystem. -/
structure RunOut where
  result : Except String Bool
  events : List Event
  fs : FS

/-- Whether a single full `read()` call on an opened blob raises: the one
read is call 0, so it fails exactly when the fault is at call 0. -/
def bufReadFails (b : Blob) : Bool := b.fault == some 0

/-- Whether the buffered loop's try-block fails for a layer: the blob is
missing, or its single full read raises. -/
def layerReadFails (store : Store) (blob_directory : String) (l : Layer) : Bool :=
  match shaOf l.digest with
  | none => false
  | some sha =>
    match store (blobPath blob_directory sha) with
    | none => true
    | some b => bufReadFails b

/-- A layer whose digest is well formed, whose blob exists and which reads
without fault. -/
def layerGood (store : Store) (blob_directory : String) (l : Layer) : Bool :=
  match shaOf l.digest with
  | none => false
  | some sha =>
    match store (blobPath blob_directory sha) with
    | none => false
    | some b => b.fault == none

/-- The content a layer resolves to (empty when unresolvable). -/
def resolvedContent (store : Store) (blob_directory : String) (l : Layer) : Bytes :=
  match shaOf l.digest with
  | none => []
  | some sha =>
    match store (blobPath blob_directory sha) with
    | none => []
    | some b => b.content

/-- The sequence of chunks `f.read(chunk_size)` returns before the final
empty read: for `chunk_size = 0` Python's `read(0)` returns `b''` at once
and the loop body never runs. -/
def readChunksFrom (content : Bytes) (chunkSize : Nat) : List Bytes :=
  if chunkSize = 0 then []
  else if h : content = [] then []
  else content.take chunkSize :: readChunksFrom (content.drop chunkSize) chunkSize
termination_by content.length
decreasing_by
  simp only [List.length_drop]
  have hc : 0 < content.length := List.length_pos.mpr h
  omega

/-- The per-chunk progress prints of lines 228-231: after each non-empty
chunk, `int(bytes_processed / file_size * 100)` (modelled as Nat floor). -/
def progressEventsAux (file_size bp : Nat) : List Bytes → List Event
  | [] => []
  | c :: rest =>
    .chunkProgress ((bp + c.length) * 100 / file_size) (bp + c.length) file_size ::
      progressEventsAux file_size (bp + c.length) rest

/-- Lines 222-231: read one blob in chunks, appending each chunk to the
output; returns the bytes written, the progress events, and whether the
reads all succeeded (a fault at read call `k` leaves the first `k` chunks
written and raises, caught by the inner handler). -/
def processFragment (content : Bytes) (chunkSize : Nat) (fault : Option Nat) :
    Bytes × List Event × Bool :=
  let cs := readChunksFrom content chunkSize
  match fault with
  | none => (cs.flatten, progressEventsAux content.length 0 cs, true)
  | some k =>
    if k ≤ cs.length then
      ((cs.take k).flatten, progressEventsAux content.length 0 (cs.take k), false)
    else (cs.flatten, progressEventsAux content.length 0 cs, true)

/-- The three ways the chunked per-layer loop can end. -/
inductive LoopExit where
  | success
  | failedReturn
  | exn (msg : String)
deriving DecidableEq

/-- Lines 199-241, the chunked per-layer loop: returns the bytes written to
the open output file, the events, and the exit mode.  A missing blob or a
failed chunk read is an immediate `return False`; a malformed digest
raises out to the outer handler. -/
def chunkedLoop (store : Store) (blob_directory : String) (chunkSize : Nat)
    (i : Nat) : List Layer → Bytes × List Event × LoopExit
  | [] => ([], [], .success)
  | layer_info :: rest =>
    match shaOf layer_info.digest with
    | none => ([], [.layerIndex i], .exn "IndexError: list index out of range")
    | some sha =>
      let source_blob := blobPath blob_directory sha
      match store source_blob with
      | none => ([], [.layerIndex i, .blobNotFound source_blob], .failedReturn)
      | some blob =>
        let pf := processFragment blob.content chunkSize blob.fault
        if pf.2.2 then
          let restOut := chunkedLoop store blob_directory chunkSize (i + 1) rest
          (pf.1 ++ restOut.1,
           .layerIndex i :: .processingBlob source_blob blob.content.length ::
             pf.2.1 ++ [.processedBlob source_blob blob.content.length] ++ restOut.2.1,
           restOut.2.2)
        else
          (pf.1,
           .layerIndex i :: .processingBlob source_blob blob.content.length ::
             pf.2.1 ++ [.processFailed source_blob "IOError"],
           .failedReturn)

/-- Lines 182-256: the streamed strategy.  Opening the output for `'wb'`
creates/truncates it, so after any exit the path holds exactly the bytes
written so far — except the outer exception handler, which removes the
file (`return False` from inside the `with` does not reach that handler). -/
def recombine_model_chunked (manifest_path blob_directory output_directory : String)
    (layers : List Layer) (modelName target_subdir combined_filename : String)
    (store : Store) (fs0 : FS) (chunk_size : Nat) : RunOut :=
  let final_output_filepath := osJoin [target_subdir, combined_filename]
  let lo := chunkedLoop store blob_directory chunk_size 0 layers
  match lo.2.2 with
  | .success =>
    ⟨.ok true,
     .chunkModeMsg chunk_size :: lo.2.1 ++ [.createdArtifact final_output_filepath lo.1.length],
     updateFS fs0 final_output_filepath lo.1⟩
  | .failedReturn =>
    ⟨.ok false, .chunkModeMsg chunk_size :: lo.2.1, updateFS fs0 final_output_filepath lo.1⟩
  | .exn msg =>
    ⟨.ok false, .chunkModeMsg chunk_size :: lo.2.1 ++ [.chunkedError msg, .removedIncomplete],
     removeFS fs0 final_output_filepath⟩

/-- The accumulated state of the buffered per-layer loop. -/
structure BufOut where
  contents : List Bytes
  errors : Bool
  events : List Event
  exn : Option String

/-- Lines 123-152, the buffered per-layer loop: a missing blob or a failed
read is recorded (`errors_occurred`) and the loop continues; a malformed
digest (extracted outside the try-block) raises and stops the loop. -/
def bufferedLoop (store : Store) (blob_directory : String) (i : Nat) :
    List Layer → BufOut
  | [] => ⟨[], false, [], none⟩
  | layer_info :: rest =>
    match shaOf layer_info.digest with
    | none => ⟨[], false, [.layerIndex i], some "IndexError: list index out of range"⟩
    | some sha =>
      let source_blob := blobPath blob_directory sha
      let step : List Bytes × Bool × List Event :=
        match store source_blob with
        | none =>
          ([], true, [.readFailed source_blob ("Blob file not found: " ++ source_blob)])
        | some blob =>
          if bufReadFails blob then
            ([], true, [.readingBlob source_blob, .readFailed source_blob "IOError"])
          else
            ([blob.content], false,
             [.readingBlob source_blob, .readSuccess source_blob blob.content.length])
      let restOut := bufferedLoop store blob_directory (i + 1) rest
      ⟨step.1 ++ restOut.contents, step.2.1 || restOut.errors,
       .layerIndex i :: step.2.2 ++ restOut.events, restOut.exn⟩

/-- Lines 119-180: the buffered strategy.  Any recorded layer error, or an
empty content list, aborts before the output file is touched; otherwise the
concatenation is written in one step. -/
def recombine_buffered (layers : List Layer)
    (modelName target_subdir combined_filename : String)
    (store : Store) (blob_directory : String) (fs0 : FS) : RunOut :=
  let lo := bufferedLoop store blob_directory 0 layers
  match lo.exn with
  | some msg => ⟨.error msg, lo.events, fs0⟩
  | none =>
    if lo.errors then
      ⟨.ok false, lo.events ++ [.abortedErrors modelName], fs0⟩
    else if lo.contents.isEmpty then
      ⟨.ok false, lo.events ++ [.abortedNoLayers modelName], fs0⟩
    else
      let combined_content := lo.contents.flatten
      let final_output_filepath := osJoin [target_subdir, combined_filename]
      ⟨.ok true,
       lo.events ++ [.createdArtifact final_output_filepath combined_content.length],
       updateFS fs0 final_output_filepath combined_content⟩

/-- Lines 50-180: metadata validation (config section, config digest, the
configuration blob and its `file_type` / `model_type` fields, the layers
list), then strategy selection by total estimated size, then the selected
assembly.  `.error` results model uncaught exceptions. -/
def recombine_model (manifest_path : String) (obj : Manifest) (store : Store)
    (blob_directory output_directory : String) (fs0 : FS) : RunOut :=
  match obj.config with
  | none => ⟨.error "Config section missing from JSON.", [], fs0⟩
  | some config =>
    match config.digest with
    | none => ⟨.error "Digest missing from config section.", [], fs0⟩
    | some digest =>
      let sha_value := (pySplit digest (':')).getLastD ""
      let sha_file := blobPath blob_directory sha_value
      match store sha_file with
      | none => ⟨.error "FileNotFoundError opening config blob", [], fs0⟩
      | some cblob =>
        if bufReadFails cblob then ⟨.error "IOError reading config blob", [], fs0⟩
        else
          match cblob.json with
          | none => ⟨.error "JSONDecodeError", [], fs0⟩
          | some config_data =>
            match fileTypeOf config_data with
            | .error msg => ⟨.error msg, [], fs0⟩
            | .ok modelQuant =>
              let trained_on := match lookupKey config_data "model_type" with
                | some v => pyStr v
                | none => "unknown"
              match obj.layers with
              | none => ⟨.error "Layers section is required but missing.", [], fs0⟩
              | some [] => ⟨.error "Layers section is required but missing.", [], fs0⟩
              | some layers =>
                let modelName := basename (dirname manifest_path)
                let target_subdir := osJoin [output_directory, modelName]
                let combined_filename :=
                  modelName ++ "-" ++ trained_on ++ "-" ++ modelQuant ++ ".gguf"
                match get_model_size layers store blob_directory with
                | .error msg => ⟨.error msg, [], fs0⟩
                | .ok total_size =>
                  if choosesChunked total_size then
                    let sub := recombine_model_chunked manifest_path blob_directory
                      output_directory layers modelName target_subdir combined_filename
                      store fs0 default_chunk_size
                    ⟨sub.result, .usingChunkedMsg total_size :: sub.events, sub.fs⟩
                  else
                    let sub := recombine_buffered layers modelName target_subdir
                      combined_filename store blob_directory fs0
                    ⟨sub.result, .usingStandardMsg :: sub.events, sub.fs⟩

/-- The layer indices announced in a trace, in order. -/
def layerIndexesOf (events : List Event) : List Nat :=
  events.filterMap fun e =>
    match e with
    | .layerIndex i => some i
    | _ => none

/-- Whether an event is a per-fragment terminal status line of the
buffered loop (a success or a failure report for one fragment). -/
def isStatusEvent : Event → Bool
  | .readSuccess _ _ => true
  | .readFailed _ _ => true
  | _ => false

/-- The number of per-fragment status lines in a trace. -/
def statusCount (events : List Event) : Nat := events.countP isStatusEvent

/-- Whether an event reports a failure of the run. -/
def isFailureEvent : Event → Bool
  | .readFailed _ _ => true
  | .blobNotFound _ => true
  | .processFailed _ _ => true
  | .abortedErrors _ => true
  | .abortedNoLayers _ => true
  | .chunkedError _ => true
  | _ => false

/-- A concrete configuration document: `file_type = "Q4_0"`, `model_type = "llama"`. -/
def demoConfigData : List (String × JVal) :=
  [("file_type", JVal.str "Q4_0"), ("model_type", JVal.str "llama")]

/-- The blob holding the concrete configuration document. -/
def demoCfgBlob : Blob := ⟨[], some demoConfigData, none⟩

def demoLayerA : Layer := ⟨"application/vnd.ollama.image.model", "sha256:aa"⟩

def demoLayerB : Layer := ⟨"application/vnd.ollama.image.model", "sha256:bb"⟩

/-- A layer whose blob is absent from the store. -/
def demoLayerMissing : Layer := ⟨"application/vnd.ollama.image.model", "sha256:zz"⟩

/-- A layer whose blob is present but zero bytes long. -/
def demoLayerEmpty : Layer := ⟨"application/vnd.ollama.image.model", "sha256:ee"⟩

/-- A layer whose blob is present but raises on its first read call. -/
def demoLayerFaulty : Layer := ⟨"application/vnd.ollama.image.model", "sha256:ff"⟩

/-- A concrete blob store with the configuration blob, two ordinary layer
blobs, a zero-byte blob and a blob that raises when read. -/
def demoStore : Store := fun p =>
  if p = "/blobs/sha256-cfg" then some demoCfgBlob
  else if p = "/blobs/sha256-aa" then some ⟨[1, 2, 3], none, none⟩
  else if p = "/blobs/sha256-bb" then some ⟨[4, 5], none, none⟩
  else if p = "/blobs/sha256-ee" then some ⟨[], none, none⟩
  else if p = "/blobs/sha256-ff" then some ⟨[7, 8], none, some 0⟩
  else none

def demoManifest : Manifest := ⟨some ⟨some "sha256:cfg"⟩, some [demoLayerA, demoLayerB]⟩

def demoManifestNoConfig : Manifest := ⟨none, some [demoLayerA]⟩

def demoManifestBadLayer : Manifest :=
  ⟨some ⟨some "sha256:cfg"⟩, some [demoLayerA, demoLayerMissing]⟩

def demoManifestNoLayers : Manifest := ⟨some ⟨some "sha256:cfg"⟩, none⟩

def demoPath : String := "/manifests/mymodel/latest"

/-- A configuration document with no `file_type` key. -/
def demoConfigNoFT : List (String × JVal) := [("model_type", JVal.str "llama")]

/-- A store whose configuration blob lacks `file_type`. -/
def demoStoreBadFT : Store := fun p =>
  if p = "/blobs/sha256-cfg" then some ⟨[], some demoConfigNoFT, none⟩ else none

/-- A store holding only the configuration blob (no layer blobs at all). -/
def demoStoreOnlyCfg : Store := fun p =>
  if p = "/blobs/sha256-cfg" then some demoCfgBlob else none

theorem readChunksFrom_nil (chunkSize : Nat) : readChunksFrom [] chunkSize = [] := by
  rw [readChunksFrom]
  split <;> simp

theorem readChunksFrom_flatten_aux (chunkSize : Nat) (hcs : chunkSize ≠ 0) :
    ∀ (n : Nat) (content : Bytes), content.length ≤ n →
      (readChunksFrom content chunkSize).flatten = content := by
  intro n
  induction n with
  | zero =>
    intro content hlen
    have hc : content = [] := List.length_eq_zero.mp (Nat.le_zero.mp hlen)
    subst hc
    simp [readChunksFrom_nil]
  | succ n ih =>
    intro content hlen
    rw [readChunksFrom]
    by_cases hc : content = []
    · subst hc; simp
    · simp only [hcs, if_false, hc, dif_neg]
      have hrec : (readChunksFrom (content.drop chunkSize) chunkSize).flatten =
          content.drop chunkSize := by
        apply ih
        have h1 : 0 < content.length := List.length_pos.mpr hc
        have h2 : (content.drop chunkSize).length = content.length - chunkSize :=
          List.length_drop _ _
        omega
      simp [hrec]

theorem readChunksFrom_flatten (content : Bytes) (chunkSize : Nat) (hcs : chunkSize ≠ 0) :
    (readChunksFrom content chunkSize).flatten = content :=
  readChunksFrom_flatten_aux chunkSize hcs content.length content le_rfl

theorem processFragment_nofault (content : Bytes) (chunkSize : Nat) (hcs : chunkSize ≠ 0) :
    processFragment content chunkSize none =
      (content, progressEventsAux content.length 0 (readChunksFrom content chunkSize), true) := by
  simp [processFragment, readChunksFrom_flatten content chunkSize hcs]

theorem processFragment_empty_nofault (chunkSize : Nat) :
    processFragment [] chunkSize none = ([], [], true) := by
  simp [processFragment, readChunksFrom_nil, progressEventsAux]

theorem get_model_size_wf (store : Store) (blob_directory : String) :
    ∀ (layers : List Layer), (∀ l ∈ layers, (shaOf l.digest).isSome = true) →
      get_model_size layers store blob_directory =
        .ok ((layers.map (fun l => (resolvedContent store blob_directory l).length)).sum) := by
  intro layers
  induction layers with
  | nil => intro _; simp [get_model_size]
  | cons l rest ih =>
    intro hwf
    have hsha : (shaOf l.digest).isSome = true := hwf l (List.mem_cons_self l rest)
    obtain ⟨sha, hsha⟩ := Option.isSome_iff_exists.mp hsha
    have hrest := ih (fun x hx => hwf x (List.mem_cons_of_mem l hx))
    rw [get_model_size, hsha, hrest]
    cases hst : store (blobPath blob_directory sha) <;>
      simp [resolvedContent, hsha, hst]

theorem get_model_size_error_msg (store : Store) (blob_directory : String) :
    ∀ (layers : List Layer) (m : String),
      get_model_size layers store blob_directory = .error m →
        m = "IndexError: list index out of range" := by
  intro layers
  induction layers with
  | nil => intro m h; simp [get_model_size] at h
  | cons l rest ih =>
    intro m h
    rw [get_model_size] at h
    cases hsha : shaOf l.digest with
    | none => rw [hsha] at h; injection h with h'; exact h'.symm
    | some sha =>
      rw [hsha] at h
      cases hrec : get_model_size rest store blob_directory with
      | error e =>
        rw [hrec] at h
        injection h with h'
        exact h'.symm.trans (ih e hrec)
      | ok t => rw [hrec] at h; simp at h

theorem bufferedLoop_exn_msg (store : Store) (blob_directory : String) :
    ∀ (layers : List Layer) (i : Nat) (m : String),
      (bufferedLoop store blob_directory i layers).exn = some m →
        m = "IndexError: list index out of range" := by
  intro layers
  induction layers with
  | nil => intro i m h; simp [bufferedLoop] at h
  | cons l rest ih =>
    intro i m h
    rw [bufferedLoop] at h
    cases hsha : shaOf l.digest with
    | none =>
      rw [hsha] at h
      injection h with h'
      exact h'.symm
    | some sha =>
      rw [hsha] at h
      exact ih (i + 1) m h

theorem bufferedLoop_wf (store : Store) (blob_directory : String) :
    ∀ (layers : List Layer) (i : Nat),
      (∀ l ∈ layers, (shaOf l.digest).isSome = true) →
      (bufferedLoop store blob_directory i layers).exn = none ∧
      (bufferedLoop store blob_directory i layers).errors =
        layers.any (layerReadFails store blob_directory) := by
  intro layers
  induction layers with
  | nil => intro i _; simp [bufferedLoop]
  | cons l rest ih =>
    intro i hwf
    have hsha : (shaOf l.digest).isSome = true := hwf l (List.mem_cons_self l rest)
    obtain ⟨sha, hsha⟩ := Option.isSome_iff_exists.mp hsha
    have hrest := ih (i + 1) (fun x hx => hwf x (List.mem_cons_of_mem l hx))
    rw [bufferedLoop, hsha]
    refine ⟨hrest.1, ?_⟩
    rw [List.any_cons, ← hrest.2]
    cases hst : store (blobPath blob_directory sha) with
    | none => simp [layerReadFails, hsha, hst]
    | some b =>
      by_cases hb : bufReadFails b = true <;>
        simp [layerReadFails, hsha, hst, hb]

theorem bufferedLoop_good (store : Store) (blob_directory : String) :
    ∀ (layers : List Layer) (i : Nat),
      (∀ l ∈ layers, layerGood store blob_directory l = true) →
      (bufferedLoop store blob_directory i layers).contents =
          layers.map (resolvedContent store blob_directory) ∧
      (bufferedLoop store blob_directory i layers).errors = false ∧
      (bufferedLoop store blob_directory i layers).exn = none := by
  intro layers
  induction layers with
  | nil => intro i _; simp [bufferedLoop]
  | cons l rest ih =>
    intro i hgood
    have hl : layerGood store blob_directory l = true := hgood l (List.mem_cons_self l rest)
    have hrest := ih (i + 1) (fun x hx => hgood x (List.mem_cons_of_mem l hx))
    cases hsha : shaOf l.digest with
    | none => simp [layerGood, hsha] at hl
    | some sha =>
      cases hst : store (blobPath blob_directory sha) with
      | none => simp [layerGood, hsha, hst] at hl
      | some b =>
        have hfault : b.fault = none := by simpa [layerGood, hsha, hst] using hl
        have hnf : bufReadFails b = false := by simp [bufReadFails, hfault]
        simp [bufferedLoop, hsha, hst, hnf, hrest.1, hrest.2.1, hrest.2.2, resolvedContent]

theorem layerGood_elim (store : Store) (blob_directory : String) (l : Layer)
    (h : layerGood store blob_directory l = true) :
    ∃ sha b, shaOf l.digest = some sha ∧
      store (blobPath blob_directory sha) = some b ∧ b.fault = none := by
  cases hsha : shaOf l.digest with
  | none => simp [layerGood, hsha] at h
  | some sha =>
    cases hst : store (blobPath blob_directory sha) with
    | none => simp [layerGood, hsha, hst] at h
    | some b =>
      exact ⟨sha, b, rfl, hst, by simpa [layerGood, hsha, hst] using h⟩

theorem bufferedLoop_trace (store : Store) (blob_directory : String) :
    ∀ (layers : List Layer) (i : Nat),
      (∀ l ∈ layers, (shaOf l.digest).isSome = true) →
      layerIndexesOf (bufferedLoop store blob_directory i layers).events =
        List.range' i layers.length ∧
      statusCount (bufferedLoop store blob_directory i layers).events = layers.length := by
  intro layers
  induction layers with
  | nil => intro i _; simp [bufferedLoop, layerIndexesOf, statusCount]
  | cons l rest ih =>
    intro i hwf
    obtain ⟨sha, hsha⟩ := Option.isSome_iff_exists.mp (hwf l (List.mem_cons_self l rest))
    have hrest := ih (i + 1) (fun x hx => hwf x (List.mem_cons_of_mem l hx))
    simp only [layerIndexesOf, statusCount] at hrest
    cases hst : store (blobPath blob_directory sha) with
    | none =>
      simp [bufferedLoop, hsha, hst, layerIndexesOf, statusCount, List.countP_cons,
        List.countP_append, List.range'_succ, isStatusEvent,
        hrest.1, hrest.2, List.filterMap_append]
    | some b =>
      by_cases hb : bufReadFails b = true
      · simp [bufferedLoop, hsha, hst, hb, layerIndexesOf, statusCount, List.countP_cons,
          List.countP_append, List.range'_succ, isStatusEvent,
          hrest.1, hrest.2, List.filterMap_append]
      · simp only [Bool.not_eq_true] at hb
        simp [bufferedLoop, hsha, hst, hb, layerIndexesOf, statusCount, List.countP_cons,
          List.countP_append, List.range'_succ, isStatusEvent,
          hrest.1, hrest.2, List.filterMap_append]

theorem chunkedLoop_good_prefix (store : Store) (blob_directory : String)
    (chunkSize : Nat) (hcs : chunkSize ≠ 0) :
    ∀ (good rest : List Layer) (i : Nat),
      (∀ l ∈ good, layerGood store blob_directory l = true) →
      ∃ evs : List Event,
        chunkedLoop store blob_directory chunkSize i (good ++ rest) =
          ((good.map (resolvedContent store blob_directory)).flatten ++
             (chunkedLoop store blob_directory chunkSize (i + good.length) rest).1,
           evs ++ (chunkedLoop store blob_directory chunkSize (i + good.length) rest).2.1,
           (chunkedLoop store blob_directory chunkSize (i + good.length) rest).2.2) := by
  intro good
  induction good with
  | nil => intro rest i _; exact ⟨[], by simp⟩
  | cons l g ih =>
    intro rest i hgood
    obtain ⟨sha, b, hsha, hst, hfault⟩ :=
      layerGood_elim store blob_directory l (hgood l (List.mem_cons_self l g))
    obtain ⟨evs', heq⟩ := ih rest (i + 1) (fun x hx => hgood x (List.mem_cons_of_mem l hx))
    have hidx : i + 1 + g.length = i + (g.length + 1) := by omega
    rw [hidx] at heq
    have hpf := processFragment_nofault b.content chunkSize hcs
    refine ⟨.layerIndex i :: .processingBlob (blobPath blob_directory sha) b.content.length ::
        (progressEventsAux b.content.length 0 (readChunksFrom b.content chunkSize) ++
         [.processedBlob (blobPath blob_directory sha) b.content.length] ++ evs'), ?_⟩
    simp only [List.cons_append]
    simp only [chunkedLoop, hsha, hst, hfault, hpf]
    simp only [heq]
    simp [resolvedContent, hsha, hst, List.append_assoc]

theorem chunkedLoop_failureEvent (store : Store) (blob_directory : String) (chunkSize : Nat) :
    ∀ (layers : List Layer) (i : Nat),
      (chunkedLoop store blob_directory chunkSize i layers).2.2 = .failedReturn →
      ∃ e ∈ (chunkedLoop store blob_directory chunkSize i layers).2.1,
        isFailureEvent e = true := by
  intro layers
  induction layers with
  | nil => intro i h; simp [chunkedLoop] at h
  | cons l rest ih =>
    intro i h
    cases hsha : shaOf l.digest with
    | none => simp [chunkedLoop, hsha] at h
    | some sha =>
      cases hst : store (blobPath blob_directory sha) with
      | none =>
        refine ⟨.blobNotFound (blobPath blob_directory sha), ?_, rfl⟩
        simp [chunkedLoop, hsha, hst]
      | some b =>
        by_cases hb : (processFragment b.content chunkSize b.fault).2.2 = true
        · simp only [chunkedLoop, hsha, hst, hb, if_true] at h ⊢
          obtain ⟨e, hmem, hfe⟩ := ih (i + 1) h
          exact ⟨e, by simp [hmem], hfe⟩
        · simp only [Bool.not_eq_true] at hb
          refine ⟨.processFailed (blobPath blob_directory sha) "IOError", ?_, rfl⟩
          simp [chunkedLoop, hsha, hst, hb]

theorem layerIndexesOf_append (a b : List Event) :
    layerIndexesOf (a ++ b) = layerIndexesOf a ++ layerIndexesOf b := by
  simp [layerIndexesOf, List.filterMap_append]

theorem statusCount_append (a b : List Event) :
    statusCount (a ++ b) = statusCount a + statusCount b := by
  simp [statusCount, List.countP_append]

/-- Claim C1 (code bug): in a streamed-strategy run hitting a missing
fragment after a prefix of good fragments, the run reports failure
(returns `False`) but the partially written artifact is NOT deleted: the
target path still holds the bytes of the fragments processed before the
failure.  The `return False` paths for a missing blob and for a failed
chunk read exit the `with` block normally and never reach the outer
exception handler that performs the cleanup, contradicting the claimed
delete-on-failure behaviour. -/
theorem chunked_missing_fragment_leaves_partial_artifact
    (manifest_path blob_directory output_directory : String)
    (good : List Layer) (bad : Layer) (rest : List Layer)
    (modelName target_subdir combined_filename : String)
    (store : Store) (fs0 : FS) (chunk_size : Nat) (sha : String)
    (hcs : chunk_size ≠ 0)
    (hgood : ∀ l ∈ good, layerGood store blob_directory l = true)
    (hsha : shaOf bad.digest = some sha)
    (hmiss : store (blobPath blob_directory sha) = none) :
    (recombine_model_chunked manifest_path blob_directory output_directory
        (good ++ bad :: rest) modelName target_subdir combined_filename
        store fs0 chunk_size).result = .ok false ∧
    (recombine_model_chunked manifest_path blob_directory output_directory
        (good ++ bad :: rest) modelName target_subdir combined_filename
        store fs0 chunk_size).fs (osJoin [target_subdir, combined_filename]) =
      some ((good.map (resolvedContent store blob_directory)).flatten) := by
  obtain ⟨evs, heq⟩ := chunkedLoop_good_prefix store blob_directory chunk_size hcs
    good (bad :: rest) 0 hgood
  have hbad : chunkedLoop store blob_directory chunk_size (0 + good.length) (bad :: rest) =
      ([], [.layerIndex (0 + good.length), .blobNotFound (blobPath blob_directory sha)],
       .failedReturn) := by
    simp [chunkedLoop, hsha, hmiss]
  rw [hbad] at heq
  constructor
  · simp [recombine_model_chunked, heq]
  · simp [recombine_model_chunked, heq, updateFS]

/-- Claim C1 evaluation at the failing input: layer blob `sha256-aa`
present with bytes `[1, 2, 3]`, layer blob `sha256-zz` absent; the run
returns `False` and the artifact file holds `[1, 2, 3]`. -/
theorem chunked_missing_fragment_leaves_partial_artifact_witness :
    (recombine_model_chunked demoPath "/blobs" "/out"
        ([demoLayerA] ++ demoLayerMissing :: []) "mymodel" "/out/mymodel"
        "f.gguf" demoStore emptyFS 2).result = .ok false ∧
    (recombine_model_chunked demoPath "/blobs" "/out"
        ([demoLayerA] ++ demoLayerMissing :: []) "mymodel" "/out/mymodel"
        "f.gguf" demoStore emptyFS 2).fs (osJoin ["/out/mymodel", "f.gguf"]) =
      some (([demoLayerA].map (resolvedContent demoStore "/blobs")).flatten) :=
  chunked_missing_fragment_leaves_partial_artifact demoPath "/blobs" "/out"
    [demoLayerA] demoLayerMissing [] "mymodel" "/out/mymodel" "f.gguf"
    demoStore emptyFS 2 "zz" (by decide) (by decide) (by decide) rfl

/-- Claim C2 counterexample: the strategy selector used on line 112
(`total_size > large_file_threshold`) does NOT choose the streamed
strategy at a total exactly equal to the threshold — the boundary is
exclusive, not inclusive to the streamed side. -/
theorem choosesChunked_at_threshold : choosesChunked large_file_threshold = false := by
  decide

/-- Claim C2 (amended): strategy selection is a deterministic function of
the estimated total size against the fixed 1 GiB threshold, but the
boundary is inclusive to the BUFFERED side: a run whose metadata phase
succeeds emits the buffered-strategy message first exactly when the total
estimated size is at or below the threshold; only a total strictly above
it selects the streamed strategy. -/
theorem strategy_boundary
    (manifest_path : String) (obj : Manifest) (store : Store)
    (blob_directory output_directory : String) (fs0 : FS)
    (config : ConfigRef) (digest : String) (cblob : Blob)
    (config_data : List (String × JVal)) (modelQuant : String)
    (layers : List Layer) (total_size : Nat)
    (h1 : obj.config = some config) (h2 : config.digest = some digest)
    (h3 : store (blobPath blob_directory ((pySplit digest (':')).getLastD "")) = some cblob)
    (h4 : bufReadFails cblob = false)
    (h5 : cblob.json = some config_data)
    (h6 : fileTypeOf config_data = .ok modelQuant)
    (h7 : obj.layers = some layers) (h8 : layers ≠ [])
    (h9 : get_model_size layers store blob_directory = .ok total_size) :
    ((recombine_model manifest_path obj store blob_directory output_directory fs0).events.head? =
        some Event.usingStandardMsg) ↔ total_size ≤ large_file_threshold := by
  obtain ⟨l0, ltl, rfl⟩ := List.exists_cons_of_ne_nil h8
  simp only [List.getLastD_eq_getLast?] at h3
  by_cases hch : large_file_threshold < total_size
  · have hb : choosesChunked total_size = true := by simp [choosesChunked, hch]
    simp [recombine_model, h1, h2, h3, h4, h5, h6, h7, h9, hb]
    omega
  · have hb : choosesChunked total_size = false := by
      simp only [choosesChunked, decide_eq_false_iff_not]
      omega
    simp [recombine_model, h1, h2, h3, h4, h5, h6, h7, h9, hb]
    omega

/-- Claim C2 witness: the concrete 5-byte model goes through the buffered
strategy (its total size is at or below the threshold). -/
theorem strategy_boundary_witness :
    (recombine_model demoPath demoManifest demoStore "/blobs" "/out" emptyFS).events.head? =
      some Event.usingStandardMsg :=
  (strategy_boundary demoPath demoManifest demoStore "/blobs" "/out" emptyFS
      ⟨some "sha256:cfg"⟩ "sha256:cfg" demoCfgBlob demoConfigData "Q4_0"
      [demoLayerA, demoLayerB] 5 rfl rfl rfl rfl rfl rfl rfl (by decide)
      rfl).mpr (by decide)

/-- Claim C3: when every layer fragment is present and readable, the
buffered and the streamed strategies both succeed and write byte-identical
artifacts: the concatenation of the fragment contents in manifest layer
order, whose byte length is the sum of the individual fragment lengths. -/
theorem strategies_byte_identical
    (manifest_path blob_directory output_directory : String)
    (layers : List Layer) (modelName target_subdir combined_filename : String)
    (store : Store) (fs0 fs1 : FS) (chunk_size : Nat)
    (hcs : chunk_size ≠ 0) (hne : layers ≠ [])
    (hgood : ∀ l ∈ layers, layerGood store blob_directory l = true) :
    (recombine_buffered layers modelName target_subdir combined_filename
        store blob_directory fs0).result = .ok true ∧
    (recombine_model_chunked manifest_path blob_directory output_directory layers
        modelName target_subdir combined_filename store fs1 chunk_size).result = .ok true ∧
    (recombine_buffered layers modelName target_subdir combined_filename
        store blob_directory fs0).fs (osJoin [target_subdir, combined_filename]) =
      some ((layers.map (resolvedContent store blob_directory)).flatten) ∧
    (recombine_model_chunked manifest_path blob_directory output_directory layers
        modelName target_subdir combined_filename store fs1 chunk_size).fs
        (osJoin [target_subdir, combined_filename]) =
      some ((layers.map (resolvedContent store blob_directory)).flatten) ∧
    ((layers.map (resolvedContent store blob_directory)).flatten).length =
      ((layers.map (resolvedContent store blob_directory)).map List.length).sum := by
  have hbuf := bufferedLoop_good store blob_directory layers 0 hgood
  obtain ⟨evs, heq⟩ := chunkedLoop_good_prefix store blob_directory chunk_size hcs
    layers [] 0 hgood
  rw [List.append_nil] at heq
  have hnil : chunkedLoop store blob_directory chunk_size (0 + layers.length) [] =
      ([], [], .success) := rfl
  rw [hnil] at heq
  have hcne : layers.map (resolvedContent store blob_directory) ≠ [] := by
    simpa using hne
  refine ⟨?_, ?_, ?_, ?_, ?_⟩
  · simp [recombine_buffered, hbuf.1, hbuf.2.1, hbuf.2.2, hcne]
  · simp [recombine_model_chunked, heq]
  · simp [recombine_buffered, hbuf.1, hbuf.2.1, hbuf.2.2, hcne, updateFS]
  · simp [recombine_model_chunked, heq, updateFS]
  · simp [List.length_flatten]

/-- Claim C3 witness: the two-fragment concrete model, assembled by both
strategies with a 2-byte chunk size. -/
theorem strategies_byte_identical_witness :
    (recombine_buffered [demoLayerA, demoLayerB] "mymodel" "/out/mymodel"
        "f.gguf" demoStore "/blobs" emptyFS).result = .ok true ∧
    (recombine_model_chunked demoPath "/blobs" "/out" [demoLayerA, demoLayerB]
        "mymodel" "/out/mymodel" "f.gguf" demoStore emptyFS 2).result = .ok true ∧
    (recombine_buffered [demoLayerA, demoLayerB] "mymodel" "/out/mymodel"
        "f.gguf" demoStore "/blobs" emptyFS).fs (osJoin ["/out/mymodel", "f.gguf"]) =
      some (([demoLayerA, demoLayerB].map (resolvedContent demoStore "/blobs")).flatten) ∧
    (recombine_model_chunked demoPath "/blobs" "/out" [demoLayerA, demoLayerB]
        "mymodel" "/out/mymodel" "f.gguf" demoStore emptyFS 2).fs
        (osJoin ["/out/mymodel", "f.gguf"]) =
      some (([demoLayerA, demoLayerB].map (resolvedContent demoStore "/blobs")).flatten) ∧
    (([demoLayerA, demoLayerB].map (resolvedContent demoStore "/blobs")).flatten).length =
      (([demoLayerA, demoLayerB].map (resolvedContent demoStore "/blobs")).map List.length).sum :=
  strategies_byte_identical demoPath "/blobs" "/out" [demoLayerA, demoLayerB]
    "mymodel" "/out/mymodel" "f.gguf" demoStore emptyFS emptyFS 2
    (by decide) (by decide) (by decide)

/-- Claim C4: under the buffered strategy, a failed fragment read (missing
or unreadable blob) or an empty layer list aborts with a `False` result
and leaves the output filesystem untouched: the artifact file is never
created. -/
theorem buffered_failure_writes_nothing
    (layers : List Layer) (modelName target_subdir combined_filename : String)
    (store : Store) (blob_directory : String) (fs0 : FS)
    (hwf : ∀ l ∈ layers, (shaOf l.digest).isSome = true)
    (hfail : layers.any (layerReadFails store blob_directory) = true ∨ layers = []) :
    (recombine_buffered layers modelName target_subdir combined_filename
        store blob_directory fs0).result = .ok false ∧
    (recombine_buffered layers modelName target_subdir combined_filename
        store blob_directory fs0).fs = fs0 := by
  cases hfail with
  | inl hany =>
    have hwfl := bufferedLoop_wf store blob_directory layers 0 hwf
    have herr : (bufferedLoop store blob_directory 0 layers).errors = true := by
      rw [hwfl.2]; exact hany
    constructor <;> simp [recombine_buffered, hwfl.1, herr]
  | inr hnil =>
    subst hnil
    constructor <;> simp [recombine_buffered, bufferedLoop]

/-- Claim C4 witness: a single missing fragment aborts the buffered
strategy with no write. -/
theorem buffered_failure_writes_nothing_witness :
    (recombine_buffered [demoLayerMissing] "mymodel" "/out/mymodel" "f.gguf"
        demoStore "/blobs" emptyFS).result = .ok false ∧
    (recombine_buffered [demoLayerMissing] "mymodel" "/out/mymodel" "f.gguf"
        demoStore "/blobs" emptyFS).fs = emptyFS :=
  buffered_failure_writes_nothing [demoLayerMissing] "mymodel" "/out/mymodel"
    "f.gguf" demoStore "/blobs" emptyFS (by decide) (Or.inl (by decide))

/-- Claim C5: the buffered strategy attempts every fragment in order even
after an earlier failure: the trace announces exactly the layer indices
`0, ..., n-1` in order, and contains exactly one per-fragment status line
(success or failure) per layer. -/
theorem buffered_attempts_every_fragment
    (layers : List Layer) (modelName target_subdir combined_filename : String)
    (store : Store) (blob_directory : String) (fs0 : FS)
    (hwf : ∀ l ∈ layers, (shaOf l.digest).isSome = true) :
    layerIndexesOf (recombine_buffered layers modelName target_subdir combined_filename
        store blob_directory fs0).events = List.range layers.length ∧
    statusCount (recombine_buffered layers modelName target_subdir combined_filename
        store blob_directory fs0).events = layers.length := by
  have htr := bufferedLoop_trace store blob_directory layers 0 hwf
  have hexn := (bufferedLoop_wf store blob_directory layers 0 hwf).1
  rw [List.range_eq_range']
  by_cases herr : (bufferedLoop store blob_directory 0 layers).errors = true
  · have hev : (recombine_buffered layers modelName target_subdir combined_filename
        store blob_directory fs0).events =
        (bufferedLoop store blob_directory 0 layers).events ++
          [.abortedErrors modelName] := by
      simp [recombine_buffered, hexn, herr]
    rw [hev, layerIndexesOf_append, statusCount_append, htr.1, htr.2]
    simp [layerIndexesOf, statusCount, isStatusEvent]
  · by_cases hemp : (bufferedLoop store blob_directory 0 layers).contents.isEmpty = true
    · have hev : (recombine_buffered layers modelName target_subdir combined_filename
          store blob_directory fs0).events =
          (bufferedLoop store blob_directory 0 layers).events ++
            [.abortedNoLayers modelName] := by
        simp [recombine_buffered, hexn, herr, hemp]
      rw [hev, layerIndexesOf_append, statusCount_append, htr.1, htr.2]
      simp [layerIndexesOf, statusCount, isStatusEvent]
    · have hev : (recombine_buffered layers modelName target_subdir combined_filename
          store blob_directory fs0).events =
          (bufferedLoop store blob_directory 0 layers).events ++
            [.createdArtifact (osJoin [target_subdir, combined_filename])
              (bufferedLoop store blob_directory 0 layers).contents.flatten.length] := by
        simp [recombine_buffered, hexn, herr, hemp]
      rw [hev, layerIndexesOf_append, statusCount_append, htr.1, htr.2]
      simp [layerIndexesOf, statusCount, isStatusEvent]

/-- Claim C5 witness: a three-fragment run whose middle fragment raises on
read still announces indices `[0, 1, 2]` and reports three status lines. -/
theorem buffered_attempts_every_fragment_witness :
    layerIndexesOf (recombine_buffered [demoLayerA, demoLayerFaulty, demoLayerB]
        "mymodel" "/out/mymodel" "f.gguf" demoStore "/blobs" emptyFS).events =
      List.range [demoLayerA, demoLayerFaulty, demoLayerB].length ∧
    statusCount (recombine_buffered [demoLayerA, demoLayerFaulty, demoLayerB]
        "mymodel" "/out/mymodel" "f.gguf" demoStore "/blobs" emptyFS).events =
      [demoLayerA, demoLayerFaulty, demoLayerB].length :=
  buffered_attempts_every_fragment [demoLayerA, demoLayerFaulty, demoLayerB]
    "mymodel" "/out/mymodel" "f.gguf" demoStore "/blobs" emptyFS (by decide)

/-- Claim C6: a configuration document whose `file_type` is missing, the
empty string, or not a string at all makes the conversion fail with the
single uniform `ValueError` for an invalid quantization type, before any
event is emitted and with the output filesystem untouched. -/
theorem invalid_file_type_uniform_error
    (manifest_path : String) (obj : Manifest) (store : Store)
    (blob_directory output_directory : String) (fs0 : FS)
    (config : ConfigRef) (digest : String) (cblob : Blob)
    (config_data : List (String × JVal))
    (h1 : obj.config = some config) (h2 : config.digest = some digest)
    (h3 : store (blobPath blob_directory ((pySplit digest (':')).getLastD "")) = some cblob)
    (h4 : bufReadFails cblob = false) (h5 : cblob.json = some config_data)
    (hbad : lookupKey config_data "file_type" = none ∨
            lookupKey config_data "file_type" = some (JVal.str "") ∨
            ∃ v, lookupKey config_data "file_type" = some v ∧ v.isStr = false) :
    (recombine_model manifest_path obj store blob_directory output_directory fs0).result =
      .error "Invalid or missing `file_type` parameter." ∧
    (recombine_model manifest_path obj store blob_directory output_directory fs0).events = [] ∧
    (recombine_model manifest_path obj store blob_directory output_directory fs0).fs = fs0 := by
  have hft : fileTypeOf config_data = .error "Invalid or missing `file_type` parameter." := by
    rcases hbad with h | h | ⟨v, hv, hstr⟩
    · simp [fileTypeOf, h]
    · simp [fileTypeOf, h, pyLen]
    · cases v with
      | str s => simp [JVal.isStr] at hstr
      | num n => simp [fileTypeOf, hv, pyLen]
      | bool b => simp [fileTypeOf, hv, pyLen]
      | null => simp [fileTypeOf, hv, pyLen]
      | arr xs => cases xs with
        | nil => simp [fileTypeOf, hv, pyLen]
        | cons a as => simp [fileTypeOf, hv, pyLen]
      | obj kvs => cases kvs with
        | nil => simp [fileTypeOf, hv, pyLen]
        | cons a as => simp [fileTypeOf, hv, pyLen]
  simp only [List.getLastD_eq_getLast?] at h3
  refine ⟨?_, ?_, ?_⟩ <;> simp [recombine_model, h1, h2, h3, h4, h5, hft]

/-- Claim C6 witness: a configuration document with no `file_type` key. -/
theorem invalid_file_type_uniform_error_witness :
    (recombine_model demoPath demoManifest demoStoreBadFT "/blobs" "/out" emptyFS).result =
      .error "Invalid or missing `file_type` parameter." ∧
    (recombine_model demoPath demoManifest demoStoreBadFT "/blobs" "/out" emptyFS).events = [] ∧
    (recombine_model demoPath demoManifest demoStoreBadFT "/blobs" "/out" emptyFS).fs = emptyFS :=
  invalid_file_type_uniform_error demoPath demoManifest demoStoreBadFT "/blobs" "/out"
    emptyFS ⟨some "sha256:cfg"⟩ "sha256:cfg" ⟨[], some demoConfigNoFT, none⟩
    demoConfigNoFT rfl rfl rfl rfl rfl (Or.inl rfl)

/-- Claim C7: a manifest whose `layers` field is absent or empty fails with
the missing-layers error, emits no events, leaves the output filesystem
untouched, and performs no layer-fragment I/O: the outcome is identical
for any store that agrees on the configuration blob alone. -/
theorem missing_layers_immediate_error
    (manifest_path : String) (obj : Manifest) (store : Store)
    (blob_directory output_directory : String) (fs0 : FS)
    (config : ConfigRef) (digest : String) (cblob : Blob)
    (config_data : List (String × JVal)) (modelQuant : String)
    (h1 : obj.config = some config) (h2 : config.digest = some digest)
    (h3 : store (blobPath blob_directory ((pySplit digest (':')).getLastD "")) = some cblob)
    (h4 : bufReadFails cblob = false) (h5 : cblob.json = some config_data)
    (h6 : fileTypeOf config_data = .ok modelQuant)
    (h7 : obj.layers = none ∨ obj.layers = some []) :
    (recombine_model manifest_path obj store blob_directory output_directory fs0).result =
      .error "Layers section is required but missing." ∧
    (recombine_model manifest_path obj store blob_directory output_directory fs0).events = [] ∧
    (recombine_model manifest_path obj store blob_directory output_directory fs0).fs = fs0 ∧
    ∀ store2 : Store,
      store2 (blobPath blob_directory ((pySplit digest (':')).getLastD "")) =
        store (blobPath blob_directory ((pySplit digest (':')).getLastD "")) →
      recombine_model manifest_path obj store2 blob_directory output_directory fs0 =
        recombine_model manifest_path obj store blob_directory output_directory fs0 := by
  have h3' : ∀ store2 : Store,
      store2 (blobPath blob_directory ((pySplit digest (':')).getLastD "")) =
        store (blobPath blob_directory ((pySplit digest (':')).getLastD "")) →
      store2 (blobPath blob_directory ((pySplit digest (':')).getLast?.getD "")) =
        some cblob := by
    intro store2 hag
    simp only [List.getLastD_eq_getLast?] at hag h3
    rw [hag, h3]
  simp only [List.getLastD_eq_getLast?] at h3
  cases h7 with
  | inl h7 =>
    refine ⟨?_, ?_, ?_, ?_⟩
    · simp [recombine_model, h1, h2, h3, h4, h5, h6, h7]
    · simp [recombine_model, h1, h2, h3, h4, h5, h6, h7]
    · simp [recombine_model, h1, h2, h3, h4, h5, h6, h7]
    · intro store2 hag
      simp [recombine_model, h1, h2, h3, h3' store2 hag, h4, h5, h6, h7]
  | inr h7 =>
    refine ⟨?_, ?_, ?_, ?_⟩
    · simp [recombine_model, h1, h2, h3, h4, h5, h6, h7]
    · simp [recombine_model, h1, h2, h3, h4, h5, h6, h7]
    · simp [recombine_model, h1, h2, h3, h4, h5, h6, h7]
    · intro store2 hag
      simp [recombine_model, h1, h2, h3, h3' store2 hag, h4, h5, h6, h7]

/-- Claim C7 witness: a manifest with no `layers` field fails identically
under the full store and under a store holding only the configuration
blob. -/
theorem missing_layers_immediate_error_witness :
    (recombine_model demoPath demoManifestNoLayers demoStore "/blobs" "/out" emptyFS).result =
      .error "Layers section is required but missing." ∧
    (recombine_model demoPath demoManifestNoLayers demoStore "/blobs" "/out" emptyFS).events = [] ∧
    (recombine_model demoPath demoManifestNoLayers demoStore "/blobs" "/out" emptyFS).fs = emptyFS ∧
    recombine_model demoPath demoManifestNoLayers demoStoreOnlyCfg "/blobs" "/out" emptyFS =
      recombine_model demoPath demoManifestNoLayers demoStore "/blobs" "/out" emptyFS := by
  have h := missing_layers_immediate_error demoPath demoManifestNoLayers demoStore
    "/blobs" "/out" emptyFS ⟨some "sha256:cfg"⟩ "sha256:cfg" demoCfgBlob demoConfigData
    "Q4_0" rfl rfl rfl rfl rfl rfl (Or.inl rfl)
  exact ⟨h.1, h.2.1, h.2.2.1, h.2.2.2 demoStoreOnlyCfg rfl⟩

/-- Claim C8: the size estimator returns the sum of the byte sizes of the
layer fragments that resolve to existing blobs, a missing fragment
contributing zero bytes instead of failing; being a pure function of the
store, it cannot mutate it. -/
theorem size_estimator_sums_existing
    (layers : List Layer) (store : Store) (blob_directory : String)
    (hwf : ∀ l ∈ layers, (shaOf l.digest).isSome = true) :
    get_model_size layers store blob_directory =
      .ok ((layers.map
        (fun l => (resolvedContent store blob_directory l).length)).sum) :=
  get_model_size_wf store blob_directory layers hwf

/-- Claim C8 witness: with the middle fragment missing, the estimate is
the 5 bytes of the two existing fragments. -/
theorem size_estimator_sums_existing_witness :
    get_model_size [demoLayerA, demoLayerMissing, demoLayerB] demoStore "/blobs" =
      .ok (([demoLayerA, demoLayerMissing, demoLayerB].map
        (fun l => (resolvedContent demoStore "/blobs" l).length)).sum) :=
  size_estimator_sums_existing [demoLayerA, demoLayerMissing, demoLayerB]
    demoStore "/blobs" (by decide)

/-- Claim C10: a fragment that exists but is zero bytes long is completed
by the streamed strategy without error and without emitting any
percent-complete event, contributing zero bytes to the artifact; the
per-chunk progress computation is reached only after a non-empty chunk has
been read, so the `bytes_processed / file_size` division is never executed
for such a fragment. -/
theorem chunked_zero_byte_fragment
    (manifest_path blob_directory output_directory : String)
    (layer : Layer) (modelName target_subdir combined_filename : String)
    (store : Store) (fs0 : FS) (chunk_size : Nat) (sha : String) (b : Blob)
    (hsha : shaOf layer.digest = some sha)
    (hres : store (blobPath blob_directory sha) = some b)
    (hcontent : b.content = []) (hfault : b.fault = none) :
    (recombine_model_chunked manifest_path blob_directory output_directory [layer]
        modelName target_subdir combined_filename store fs0 chunk_size).result = .ok true ∧
    (recombine_model_chunked manifest_path blob_directory output_directory [layer]
        modelName target_subdir combined_filename store fs0 chunk_size).fs
        (osJoin [target_subdir, combined_filename]) = some [] ∧
    (∀ e ∈ (recombine_model_chunked manifest_path blob_directory output_directory [layer]
        modelName target_subdir combined_filename store fs0 chunk_size).events,
      ∀ pct bp fsz, e ≠ Event.chunkProgress pct bp fsz) ∧
    (∀ cs : Nat, processFragment [] cs none = ([], [], true)) := by
  have hloop : chunkedLoop store blob_directory chunk_size 0 [layer] =
      ([], [.layerIndex 0, .processingBlob (blobPath blob_directory sha) 0,
            .processedBlob (blobPath blob_directory sha) 0], .success) := by
    simp [chunkedLoop, hsha, hres, hfault, hcontent, processFragment_empty_nofault]
  refine ⟨?_, ?_, ?_, fun cs => processFragment_empty_nofault cs⟩
  · simp [recombine_model_chunked, hloop]
  · simp [recombine_model_chunked, hloop, updateFS]
  · intro e he pct bp fsz
    simp [recombine_model_chunked, hloop] at he
    rcases he with h | h | h | h | h <;> subst h <;> simp

/-- Claim C10 witness: the concrete zero-byte fragment `sha256-ee`. -/
theorem chunked_zero_byte_fragment_witness :
    (recombine_model_chunked demoPath "/blobs" "/out" [demoLayerEmpty]
        "mymodel" "/out/mymodel" "f.gguf" demoStore emptyFS 2).result = .ok true ∧
    (recombine_model_chunked demoPath "/blobs" "/out" [demoLayerEmpty]
        "mymodel" "/out/mymodel" "f.gguf" demoStore emptyFS 2).fs
        (osJoin ["/out/mymodel", "f.gguf"]) = some [] ∧
    (∀ e ∈ (recombine_model_chunked demoPath "/blobs" "/out" [demoLayerEmpty]
        "mymodel" "/out/mymodel" "f.gguf" demoStore emptyFS 2).events,
      ∀ pct bp fsz, e ≠ Event.chunkProgress pct bp fsz) ∧
    (∀ cs : Nat, processFragment [] cs none = ([], [], true)) :=
  chunked_zero_byte_fragment demoPath "/blobs" "/out" demoLayerEmpty "mymodel"
    "/out/mymodel" "f.gguf" demoStore emptyFS 2 "ee" ⟨[], none, none⟩
    (by decide) rfl rfl rfl

theorem fileTypeOf_error_msg (config_data : List (String × JVal)) (m : String)
    (h : fileTypeOf config_data = .error m) :
    m = "Invalid or missing `file_type` parameter." := by
  cases hk : lookupKey config_data "file_type" with
  | none =>
    simp [fileTypeOf, hk] at h
    first | exact h | exact h.symm
  | some v =>
    cases hp : pyLen v with
    | none =>
      simp [fileTypeOf, hk, hp] at h
      first | exact h | exact h.symm
    | some n =>
      cases n with
      | zero =>
        simp [fileTypeOf, hk, hp] at h
        first | exact h | exact h.symm
      | succ k =>
        cases v with
        | str s => simp [fileTypeOf, hk, hp] at h
        | num x =>
          simp [fileTypeOf, hk, hp] at h
          first | exact h | exact h.symm
        | bool x =>
          simp [fileTypeOf, hk, hp] at h
          first | exact h | exact h.symm
        | null =>
          simp [fileTypeOf, hk, hp] at h
          first | exact h | exact h.symm
        | arr xs =>
          simp [fileTypeOf, hk, hp] at h
          first | exact h | exact h.symm
        | obj kvs =>
          simp [fileTypeOf, hk, hp] at h
          first | exact h | exact h.symm

theorem recombine_buffered_ok_true_event
    (layers : List Layer) (modelName target_subdir combined_filename : String)
    (store : Store) (blob_directory : String) (fs0 : FS)
    (h : (recombine_buffered layers modelName target_subdir combined_filename
        store blob_directory fs0).result = .ok true) :
    ∃ p n, Event.createdArtifact p n ∈
      (recombine_buffered layers modelName target_subdir combined_filename
        store blob_directory fs0).events := by
  cases hexn : (bufferedLoop store blob_directory 0 layers).exn with
  | some m => simp [recombine_buffered, hexn] at h
  | none =>
    by_cases herr : (bufferedLoop store blob_directory 0 layers).errors = true
    · simp [recombine_buffered, hexn, herr] at h
    · by_cases hemp : (bufferedLoop store blob_directory 0 layers).contents.isEmpty = true
      · simp [recombine_buffered, hexn, herr, hemp] at h
      · refine ⟨osJoin [target_subdir, combined_filename],
          (bufferedLoop store blob_directory 0 layers).contents.flatten.length, ?_⟩
        simp [recombine_buffered, hexn, herr, hemp]

theorem recombine_buffered_ok_false_event
    (layers : List Layer) (modelName target_subdir combined_filename : String)
    (store : Store) (blob_directory : String) (fs0 : FS)
    (h : (recombine_buffered layers modelName target_subdir combined_filename
        store blob_directory fs0).result = .ok false) :
    ∃ e ∈ (recombine_buffered layers modelName target_subdir combined_filename
        store blob_directory fs0).events, isFailureEvent e = true := by
  cases hexn : (bufferedLoop store blob_directory 0 layers).exn with
  | some m => simp [recombine_buffered, hexn] at h
  | none =>
    by_cases herr : (bufferedLoop store blob_directory 0 layers).errors = true
    · refine ⟨Event.abortedErrors modelName, ?_, rfl⟩
      simp [recombine_buffered, hexn, herr]
    · by_cases hemp : (bufferedLoop store blob_directory 0 layers).contents.isEmpty = true
      · refine ⟨Event.abortedNoLayers modelName, ?_, rfl⟩
        simp [recombine_buffered, hexn, herr, hemp]
      · simp [recombine_buffered, hexn, herr, hemp] at h

theorem recombine_buffered_error_nonempty
    (layers : List Layer) (modelName target_subdir combined_filename : String)
    (store : Store) (blob_directory : String) (fs0 : FS) (msg : String)
    (h : (recombine_buffered layers modelName target_subdir combined_filename
        store blob_directory fs0).result = .error msg) : msg ≠ "" := by
  cases hexn : (bufferedLoop store blob_directory 0 layers).exn with
  | some m =>
    have hm := bufferedLoop_exn_msg store blob_directory layers 0 m hexn
    have hme : m = msg := by simpa [recombine_buffered, hexn] using h
    rw [← hme, hm]
    decide
  | none =>
    by_cases herr : (bufferedLoop store blob_directory 0 layers).errors = true
    · simp [recombine_buffered, hexn, herr] at h
    · by_cases hemp : (bufferedLoop store blob_directory 0 layers).contents.isEmpty = true
      · simp [recombine_buffered, hexn, herr, hemp] at h
      · simp [recombine_buffered, hexn, herr, hemp] at h

theorem recombine_model_chunked_ok_true_event
    (manifest_path blob_directory output_directory : String) (layers : List Layer)
    (modelName target_subdir combined_filename : String)
    (store : Store) (fs0 : FS) (chunk_size : Nat)
    (h : (recombine_model_chunked manifest_path blob_directory output_directory layers
        modelName target_subdir combined_filename store fs0 chunk_size).result = .ok true) :
    ∃ p n, Event.createdArtifact p n ∈
      (recombine_model_chunked manifest_path blob_directory output_directory layers
        modelName target_subdir combined_filename store fs0 chunk_size).events := by
  cases hexit : (chunkedLoop store blob_directory chunk_size 0 layers).2.2 with
  | success =>
    refine ⟨osJoin [target_subdir, combined_filename],
      (chunkedLoop store blob_directory chunk_size 0 layers).1.length, ?_⟩
    simp [recombine_model_chunked, hexit]
  | failedReturn => simp [recombine_model_chunked, hexit] at h
  | exn m => simp [recombine_model_chunked, hexit] at h

theorem recombine_model_chunked_ok_false_event
    (manifest_path blob_directory output_directory : String) (layers : List Layer)
    (modelName target_subdir combined_filename : String)
    (store : Store) (fs0 : FS) (chunk_size : Nat)
    (h : (recombine_model_chunked manifest_path blob_directory output_directory layers
        modelName target_subdir combined_filename store fs0 chunk_size).result = .ok false) :
    ∃ e ∈ (recombine_model_chunked manifest_path blob_directory output_directory layers
        modelName target_subdir combined_filename store fs0 chunk_size).events,
      isFailureEvent e = true := by
  cases hexit : (chunkedLoop store blob_directory chunk_size 0 layers).2.2 with
  | success => simp [recombine_model_chunked, hexit] at h
  | failedReturn =>
    obtain ⟨e, hmem, hfe⟩ :=
      chunkedLoop_failureEvent store blob_directory chunk_size layers 0 hexit
    refine ⟨e, ?_, hfe⟩
    simp only [recombine_model_chunked, hexit]
    exact List.mem_cons_of_mem _ hmem
  | exn m =>
    refine ⟨Event.chunkedError m, ?_, rfl⟩
    simp [recombine_model_chunked, hexit]

theorem recombine_model_chunked_never_raises
    (manifest_path blob_directory output_directory : String) (layers : List Layer)
    (modelName target_subdir combined_filename : String)
    (store : Store) (fs0 : FS) (chunk_size : Nat) (msg : String)
    (h : (recombine_model_chunked manifest_path blob_directory output_directory layers
        modelName target_subdir combined_filename store fs0 chunk_size).result =
      .error msg) : False := by
  cases hexit : (chunkedLoop store blob_directory chunk_size 0 layers).2.2 <;>
    simp [recombine_model_chunked, hexit] at h

theorem recombine_model_chunked_branch
    (manifest_path : String) (obj : Manifest) (store : Store)
    (blob_directory output_directory : String) (fs0 : FS)
    (config : ConfigRef) (digest : String) (cblob : Blob)
    (config_data : List (String × JVal)) (mq : String)
    (l0 : Layer) (ltl : List Layer) (total : Nat)
    (hcfg : obj.config = some config) (hdig : config.digest = some digest)
    (hst : store (blobPath blob_directory ((pySplit digest ':').getLast?.getD "")) = some cblob)
    (hbr : bufReadFails cblob = false) (hjson : cblob.json = some config_data)
    (hft : fileTypeOf config_data = .ok mq) (hlay : obj.layers = some (l0 :: ltl))
    (hgs : get_model_size (l0 :: ltl) store blob_directory = .ok total)
    (hch : choosesChunked total = true) :
    ∃ mn ts cf,
      recombine_model manifest_path obj store blob_directory output_directory fs0 =
        ⟨(recombine_model_chunked manifest_path blob_directory output_directory (l0 :: ltl)
            mn ts cf store fs0 default_chunk_size).result,
         .usingChunkedMsg total ::
           (recombine_model_chunked manifest_path blob_directory output_directory (l0 :: ltl)
             mn ts cf store fs0 default_chunk_size).events,
         (recombine_model_chunked manifest_path blob_directory output_directory (l0 :: ltl)
           mn ts cf store fs0 default_chunk_size).fs⟩ := by
  refine ⟨basename (dirname manifest_path),
    osJoin [output_directory, basename (dirname manifest_path)],
    basename (dirname manifest_path) ++ "-" ++
      (match lookupKey config_data "model_type" with
       | some v => pyStr v
       | none => "unknown") ++ "-" ++ mq ++ ".gguf", ?_⟩
  simp [recombine_model, hcfg, hdig, hst, hbr, hjson, hft, hlay, hgs, hch]

theorem recombine_model_buffered_branch
    (manifest_path : String) (obj : Manifest) (store : Store)
    (blob_directory output_directory : String) (fs0 : FS)
    (config : ConfigRef) (digest : String) (cblob : Blob)
    (config_data : List (String × JVal)) (mq : String)
    (l0 : Layer) (ltl : List Layer) (total : Nat)
    (hcfg : obj.config = some config) (hdig : config.digest = some digest)
    (hst : store (blobPath blob_directory ((pySplit digest ':').getLast?.getD "")) = some cblob)
    (hbr : bufReadFails cblob = false) (hjson : cblob.json = some config_data)
    (hft : fileTypeOf config_data = .ok mq) (hlay : obj.layers = some (l0 :: ltl))
    (hgs : get_model_size (l0 :: ltl) store blob_directory = .ok total)
    (hch : choosesChunked total = false) :
    ∃ mn ts cf,
      recombine_model manifest_path obj store blob_directory output_directory fs0 =
        ⟨(recombine_buffered (l0 :: ltl) mn ts cf store blob_directory fs0).result,
         .usingStandardMsg ::
           (recombine_buffered (l0 :: ltl) mn ts cf store blob_directory fs0).events,
         (recombine_buffered (l0 :: ltl) mn ts cf store blob_directory fs0).fs⟩ := by
  refine ⟨basename (dirname manifest_path),
    osJoin [output_directory, basename (dirname manifest_path)],
    basename (dirname manifest_path) ++ "-" ++
      (match lookupKey config_data "model_type" with
       | some v => pyStr v
       | none => "unknown") ++ "-" ++ mq ++ ".gguf", ?_⟩
  simp [recombine_model, hcfg, hdig, hst, hbr, hjson, hft, hlay, hgs, hch]

/-- Claim C9 counterexample: the conversion does NOT report through one
uniform channel carrying the path and byte size.  Three concrete runs:
a successful run returns the bare boolean `True` (no path, no size in
the returned value), a run with a missing `config` section raises a
`ValueError` (a different channel), and a run with a missing fragment
returns the bare boolean `False` — failures alone already use two distinct
channels. -/
theorem result_channel_counterexample :
    (recombine_model demoPath demoManifest demoStore "/blobs" "/out" emptyFS).result =
      .ok true ∧
    (recombine_model demoPath demoManifestNoConfig demoStore "/blobs" "/out" emptyFS).result =
      .error "Config section missing from JSON." ∧
    (recombine_model demoPath demoManifestBadLayer demoStore "/blobs" "/out" emptyFS).result =
      .ok false :=
  ⟨rfl, rfl, rfl⟩

/-- Claim C9 (amended): every conversion run either raises an exception
with a non-empty human-readable message (metadata and configuration
errors), or returns a boolean: `True` accompanied by an emitted
created-artifact event carrying the artifact path and byte size, `False`
accompanied by at least one emitted failure event naming the problem.
The path, size and failure details travel on the event (console) channel,
not in the returned value. -/
theorem run_outcome_channels (manifest_path : String) (obj : Manifest) (store : Store)
    (blob_directory output_directory : String) (fs0 : FS) :
    ((recombine_model manifest_path obj store blob_directory output_directory fs0).result =
        .ok true →
      ∃ p n, Event.createdArtifact p n ∈
        (recombine_model manifest_path obj store blob_directory output_directory fs0).events) ∧
    ((recombine_model manifest_path obj store blob_directory output_directory fs0).result =
        .ok false →
      ∃ e ∈ (recombine_model manifest_path obj store blob_directory output_directory fs0).events,
        isFailureEvent e = true) ∧
    (∀ msg,
      (recombine_model manifest_path obj store blob_directory output_directory fs0).result =
        .error msg → msg ≠ "") := by
  cases hcfg : obj.config with
  | none =>
    refine ⟨fun h => ?_, fun h => ?_, fun msg h => ?_⟩
    · simp [recombine_model, hcfg] at h
    · simp [recombine_model, hcfg] at h
    · simp [recombine_model, hcfg] at h
      subst h; decide
  | some config =>
  cases hdig : config.digest with
  | none =>
    refine ⟨fun h => ?_, fun h => ?_, fun msg h => ?_⟩
    · simp [recombine_model, hcfg, hdig] at h
    · simp [recombine_model, hcfg, hdig] at h
    · simp [recombine_model, hcfg, hdig] at h
      subst h; decide
  | some digest =>
  cases hst : store (blobPath blob_directory ((pySplit digest ':').getLast?.getD "")) with
  | none =>
    refine ⟨fun h => ?_, fun h => ?_, fun msg h => ?_⟩
    · simp [recombine_model, hcfg, hdig, hst] at h
    · simp [recombine_model, hcfg, hdig, hst] at h
    · simp [recombine_model, hcfg, hdig, hst] at h
      subst h; decide
  | some cblob =>
  by_cases hbr : bufReadFails cblob = true
  · refine ⟨fun h => ?_, fun h => ?_, fun msg h => ?_⟩
    · simp [recombine_model, hcfg, hdig, hst, hbr] at h
    · simp [recombine_model, hcfg, hdig, hst, hbr] at h
    · simp [recombine_model, hcfg, hdig, hst, hbr] at h
      subst h; decide
  · have hbrF : bufReadFails cblob = false := by simpa using hbr
    cases hjson : cblob.json with
    | none =>
      refine ⟨fun h => ?_, fun h => ?_, fun msg h => ?_⟩
      · simp [recombine_model, hcfg, hdig, hst, hbrF, hjson] at h
      · simp [recombine_model, hcfg, hdig, hst, hbrF, hjson] at h
      · simp [recombine_model, hcfg, hdig, hst, hbrF, hjson] at h
        subst h; decide
    | some config_data =>
    cases hft : fileTypeOf config_data with
    | error m =>
      refine ⟨fun h => ?_, fun h => ?_, fun msg h => ?_⟩
      · simp [recombine_model, hcfg, hdig, hst, hbrF, hjson, hft] at h
      · simp [recombine_model, hcfg, hdig, hst, hbrF, hjson, hft] at h
      · simp [recombine_model, hcfg, hdig, hst, hbrF, hjson, hft] at h
        subst h
        have hm := fileTypeOf_error_msg config_data _ hft
        rw [hm]; decide
    | ok mq =>
    cases hlay : obj.layers with
    | none =>
      refine ⟨fun h => ?_, fun h => ?_, fun msg h => ?_⟩
      · simp [recombine_model, hcfg, hdig, hst, hbrF, hjson, hft, hlay] at h
      · simp [recombine_model, hcfg, hdig, hst, hbrF, hjson, hft, hlay] at h
      · simp [recombine_model, hcfg, hdig, hst, hbrF, hjson, hft, hlay] at h
        subst h; decide
    | some ls =>
    cases ls with
    | nil =>
      refine ⟨fun h => ?_, fun h => ?_, fun msg h => ?_⟩
      · simp [recombine_model, hcfg, hdig, hst, hbrF, hjson, hft, hlay] at h
      · simp [recombine_model, hcfg, hdig, hst, hbrF, hjson, hft, hlay] at h
      · simp [recombine_model, hcfg, hdig, hst, hbrF, hjson, hft, hlay] at h
        subst h; decide
    | cons l0 ltl =>
    cases hgs : get_model_size (l0 :: ltl) store blob_directory with
    | error m =>
      refine ⟨fun h => ?_, fun h => ?_, fun msg h => ?_⟩
      · simp [recombine_model, hcfg, hdig, hst, hbrF, hjson, hft, hlay, hgs] at h
      · simp [recombine_model, hcfg, hdig, hst, hbrF, hjson, hft, hlay, hgs] at h
      · simp [recombine_model, hcfg, hdig, hst, hbrF, hjson, hft, hlay, hgs] at h
        subst h
        have hm := get_model_size_error_msg store blob_directory (l0 :: ltl) _ hgs
        rw [hm]; decide
    | ok total =>
    by_cases hch : choosesChunked total = true
    · obtain ⟨mn, ts, cf, heq⟩ := recombine_model_chunked_branch manifest_path obj store
        blob_directory output_directory fs0 config digest cblob config_data mq l0 ltl total
        hcfg hdig hst hbrF hjson hft hlay hgs hch
      rw [heq]
      refine ⟨fun h => ?_, fun h => ?_, fun msg h => ?_⟩
      · obtain ⟨p, n, hmem⟩ :=
          recombine_model_chunked_ok_true_event _ _ _ _ _ _ _ _ _ _ h
        exact ⟨p, n, List.mem_cons_of_mem _ hmem⟩
      · obtain ⟨e, hmem, hfe⟩ :=
          recombine_model_chunked_ok_false_event _ _ _ _ _ _ _ _ _ _ h
        exact ⟨e, List.mem_cons_of_mem _ hmem, hfe⟩
      · exact (recombine_model_chunked_never_raises _ _ _ _ _ _ _ _ _ _ msg h).elim
    · have hchF : choosesChunked total = false := by simpa using hch
      obtain ⟨mn, ts, cf, heq⟩ := recombine_model_buffered_branch manifest_path obj store
        blob_directory output_directory fs0 config digest cblob config_data mq l0 ltl total
        hcfg hdig hst hbrF hjson hft hlay hgs hchF
      rw [heq]
      refine ⟨fun h => ?_, fun h => ?_, fun msg h => ?_⟩
      · obtain ⟨p, n, hmem⟩ := recombine_buffered_ok_true_event _ _ _ _ _ _ _ h
        exact ⟨p, n, List.mem_cons_of_mem _ hmem⟩
      · obtain ⟨e, hmem, hfe⟩ := recombine_buffered_ok_false_event _ _ _ _ _ _ _ h
        exact ⟨e, List.mem_cons_of_mem _ hmem, hfe⟩
      · exact recombine_buffered_error_nonempty _ _ _ _ _ _ _ msg h

/-- Claim C9 witness: the concrete successful run returns `True` and its
trace carries a created-artifact event with the path and size. -/
theorem run_outcome_channels_witness :
    ∃ p n, Event.createdArtifact p n ∈
      (recombine_model demoPath demoManifest demoStore "/blobs" "/out" emptyFS).events :=
  (run_outcome_channels demoPath demoManifest demoStore "/blobs" "/out" emptyFS).1 rfl

end OllamaToGGUF
